import Mathlib

/-!
# Verification of the mastery-english application core logic

Shallow embedding of the core logic of `src/app.py` (Flask vocabulary
learning application): the mastery-level update state machine
(`UnifiedEvaluationManager.update_mastery_levels`), the flashcard practice
update (`update_practice`), evaluation-format detection
(`detect_evaluation_format`), and test-question distribution
(`UnifiedTestManager.calculate_question_distribution` /
`generate_questions`).  The `/api/process-mastery-levels` route is
modelled by its unconditional error outcome
(`process_mastery_levels_response`) together with the level rule written
in its body (`routeIncreaseLevel`).

Conventions of the embedding:
* Python numeric scores and thresholds (floats) are modelled as `ℚ`.
  All float arithmetic the program actually performs on the reachable
  value range agrees with exact rational arithmetic.
* Mastery levels and practice counters are modelled as `Int`
  (SQLite integer columns); timestamps as `Option Int` (nullable column,
  the concrete clock value is irrelevant).
* The database session is modelled as a `Store` of three id-indexed
  tables.  A commit that raises is modelled by an oracle
  `commitFails : String → Nat → Bool`; on failure the session is rolled
  back, so the store is left unchanged for that item (as in the source).
* `migrate_to_native_db` is modelled for the default deployment where
  `POSTGRES_URL` is unset: the function then just commits and keeps the
  item in the SQLite store (source lines 1201–1204).
* Environment-variable configuration is passed as explicit parameters;
  the source defaults are `MASTERY_EXCELLENT_THRESHOLD=7`,
  `MASTERY_POOR_THRESHOLD=3`, `MASTERY_EXCELLENT_ACTION='increase'`,
  `MASTERY_POOR_ACTION='decrease'`, `MASTERY_MEDIUM_ACTION='maintain'`.
-/

/-- A learning item row (shared shape of `VocabularyWord`, `PhrasalVerb`,
`Idiom`): `mastery_level`, `times_practiced`, `last_practiced`
(source lines 1011–1013 and the analogous columns of the other models). -/
structure Item where
  mastery_level : Int
  times_practiced : Int
  last_practiced : Option Int
deriving DecidableEq, Repr

/-- The persistent store: one id-indexed table per kind. -/
structure Store where
  vocab : Nat → Option Item
  phrasal : Nat → Option Item
  idiom : Nat → Option Item

/-- The store with no rows at all. -/
def emptyStore : Store := ⟨fun _ => none, fun _ => none, fun _ => none⟩

/-- `UnifiedEvaluationManager.get_item_by_id_and_type` (source lines
959–967): dispatch on the `word_type` string; unknown types yield `None`. -/
def get_item_by_id_and_type (s : Store) (item_id : Nat) (item_type : String) : Option Item :=
  if item_type = "vocabulary" then s.vocab item_id
  else if item_type = "phrasal_verb" then s.phrasal item_id
  else if item_type = "idiom" then s.idiom item_id
  else none

/-- Writing one row back (the committed effect of `db.session.commit()`
after mutating the item fetched by `get_item_by_id_and_type`). -/
def setItem (s : Store) (item_type : String) (item_id : Nat) (it : Item) : Store :=
  if item_type = "vocabulary" then
    { s with vocab := fun j => if j = item_id then some it else s.vocab j }
  else if item_type = "phrasal_verb" then
    { s with phrasal := fun j => if j = item_id then some it else s.phrasal j }
  else if item_type = "idiom" then
    { s with idiom := fun j => if j = item_id then some it else s.idiom j }
  else s

/-- One normalized evaluated result as consumed by
`update_mastery_levels`: `question_id`, `word_type`, `target_word`, and
the numeric score extracted by
`evaluation.get('score', evaluation.get('overall_score', 0))`
(source lines 845–850). -/
structure EvalResult where
  question_id : Nat
  word_type : String
  target_word : String
  score : ℚ
deriving DecidableEq, Repr

/-- The mastery-level transition of `update_mastery_levels`
(source lines 861–877): three score bands guarded by the configured
action strings, ceiling 10, floor 0.  Returns the new level and the
`action` tag recorded in the change entry. -/
def masteryTransition (excT poorT : ℚ) (excA poorA medA : String)
    (score : ℚ) (old : Int) : Int × String :=
  if excT < score ∧ excA = "increase" then (min 10 (old + 1), "increased_level")
  else if score < poorT ∧ poorA = "decrease" then (max 0 (old - 1), "reduced_level")
  else if poorT ≤ score ∧ score ≤ excT ∧ medA = "maintain" then (old, "maintained_level")
  else (old, "no_change")

/-- The mutation committed when the level changed (source lines 881–884):
set the new level; when the new level is 0 also reset `times_practiced`
to 0 and clear `last_practiced`. -/
def commitItem (item : Item) (newLevel : Int) : Item :=
  { mastery_level := newLevel,
    times_practiced := if newLevel = 0 then 0 else item.times_practiced,
    last_practiced := if newLevel = 0 then none else item.last_practiced }

/-- An entry of the `changes` / `failed_items` lists returned by
`update_mastery_levels` (source lines 888–923; the human-readable
`message` string is omitted). -/
structure ChangeEntry where
  id : Nat
  word_type : String
  word : String
  action : String
  old_level : Int
  new_level : Int
  score : ℚ
deriving DecidableEq, Repr

/-- Loop state of the `for result in processed_data['results']` loop of
`update_mastery_levels`. -/
structure UpdateState where
  updated : List ChangeEntry
  failed : List ChangeEntry
  store : Store

/-- One iteration of the update loop of `update_mastery_levels`
(source lines 844–923): look the item up (missing items are skipped with
`continue`), compute the banded transition, and either commit the change
(with rollback into `failed_items` when the commit raises) or record the
maintained level. -/
def stepResult (excT poorT : ℚ) (excA poorA medA : String)
    (commitFails : String → Nat → Bool) (acc : UpdateState) (r : EvalResult) : UpdateState :=
  match get_item_by_id_and_type acc.store r.question_id r.word_type with
  | none => acc
  | some item =>
    let old := item.mastery_level
    let tr := masteryTransition excT poorT excA poorA medA r.score old
    if tr.1 ≠ old then
      if commitFails r.word_type r.question_id then
        { acc with failed := acc.failed ++
            [⟨r.question_id, r.word_type, r.target_word, "failed", old, old, r.score⟩] }
      else
        { updated := acc.updated ++
            [⟨r.question_id, r.word_type, r.target_word, tr.2, old, tr.1, r.score⟩],
          failed := acc.failed,
          store := setItem acc.store r.word_type r.question_id (commitItem item tr.1) }
    else
      { acc with updated := acc.updated ++
          [⟨r.question_id, r.word_type, r.target_word, tr.2, old, tr.1, r.score⟩] }

/-- Normalized upload as produced by the `process_*` methods: the flags
checked by `update_mastery_levels` plus the result list. -/
structure ProcessedData where
  success : Bool
  can_update_mastery : Bool
  evaluation_complete : Bool
  results : List EvalResult

/-- The score list collected for scale detection (source lines 772–777):
scores that are present and strictly positive. -/
def allScores (rs : List EvalResult) : List ℚ :=
  (rs.map (fun r => r.score)).filter (fun s => 0 < s)

/-- Python `max` over a nonempty list (0 for the empty list, which the
source never takes the max of). -/
def listMax : List ℚ → ℚ
  | [] => 0
  | x :: xs => xs.foldl max x

/-- Scale detection (source lines 779–790): a batch is on the 0–100 scale
when the collected scores are nonempty and their max or mean exceeds 10. -/
def detected_scale_100 (rs : List EvalResult) : Bool :=
  let scores := allScores rs
  !scores.isEmpty &&
    (decide (10 < listMax scores) || decide (10 < scores.sum / scores.length))

/-- Threshold configuration (source lines 792–835): an optional
user-provided threshold (converted between the 0–10 and 0–100
conventions) or the environment thresholds, scaled by 10 when the data
was detected to be on the 0–100 scale. -/
def computeThresholds (threshold : Option ℚ) (envE envP : Int)
    (scale100 : Bool) : ℚ × ℚ :=
  match threshold with
  | some t =>
    if scale100 then
      if t ≤ 10 then (t * 10, max 10 ((t - 4) * 10))
      else (t, max 10 (t - 40))
    else
      if 10 < t then (t / 10, max 1 ((t - 40) / 10))
      else (t, max 1 (t - 4))
  | none =>
    if scale100 then ((envE : ℚ) * 10, (envP : ℚ) * 10)
    else ((envE : ℚ), (envP : ℚ))

/-- The `statistics` block of the update response (source lines 949–956). -/
structure Stats where
  total_questions : Nat
  updated_count : Nat
  failed_count : Nat
  increased_count : Nat
  decreased_count : Nat
  maintained_count : Nat
deriving DecidableEq, Repr

/-- Return value of `update_mastery_levels`: either one of the two early
failure dictionaries (source lines 759–769) or the success response with
its change lists and statistics. -/
inductive UpdateResult where
  | failure (message : String)
  | success (updated failed : List ChangeEntry) (stats : Stats)
deriving DecidableEq, Repr

/-- `UnifiedEvaluationManager.update_mastery_levels` (source lines
757–957), paired with the resulting store. -/
def update_mastery_levels (pd : ProcessedData) (threshold : Option ℚ)
    (envE envP : Int) (excA poorA medA : String)
    (commitFails : String → Nat → Bool) (store : Store) : UpdateResult × Store :=
  if !pd.can_update_mastery then
    (.failure "This test type does not support mastery level updates", store)
  else if !pd.evaluation_complete then
    (.failure "Evaluation not complete. Cannot update mastery levels.", store)
  else
    let scale100 := detected_scale_100 pd.results
    let th := computeThresholds threshold envE envP scale100
    let final := pd.results.foldl (stepResult th.1 th.2 excA poorA medA commitFails)
      ⟨[], [], store⟩
    let increased := (final.updated.filter (fun e => e.action == "increased_level")).length
    let decreased := (final.updated.filter (fun e => e.action == "reduced_level")).length
    let maintained := (final.updated.filter
      (fun e => e.action == "maintained_level" || e.action == "no_change")).length
    (.success final.updated final.failed
      ⟨pd.results.length, final.updated.length, final.failed.length,
        increased, decreased, maintained⟩,
      final.store)

/-- Response of the `/api/update-practice` route. -/
inductive PracticeResponse where
  | ok
  | invalidCategory
  | notFound
deriving DecidableEq, Repr

/-- Item lookup of `update_practice` (source lines 1571–1579); note the
route uses the category strings `vocabulary` / `phrasal-verbs` / `idioms`. -/
def getPracticeItem (s : Store) (category : String) (item_id : Nat) : Option Item :=
  if category = "vocabulary" then s.vocab item_id
  else if category = "phrasal-verbs" then s.phrasal item_id
  else if category = "idioms" then s.idiom item_id
  else none

/-- Committed row write of `update_practice`, by route category string. -/
def setPracticeItem (s : Store) (category : String) (item_id : Nat) (it : Item) : Store :=
  if category = "vocabulary" then
    { s with vocab := fun j => if j = item_id then some it else s.vocab j }
  else if category = "phrasal-verbs" then
    { s with phrasal := fun j => if j = item_id then some it else s.phrasal j }
  else if category = "idioms" then
    { s with idiom := fun j => if j = item_id then some it else s.idiom j }
  else s

/-- Binary-correctness level rule of `update_practice` (source lines
1585–1589): `correct` increments with ceiling 15 ("allow up to native
level"), otherwise decrement with floor 0. -/
def practiceLevel (correct : Bool) (l : Int) : Int :=
  if correct then min (l + 1) 15 else max (l - 1) 0

/-- `/api/update-practice` (source lines 1564–1602): invalid category is
a 400 error, a missing item a 404; otherwise `times_practiced` is
incremented, `last_practiced` set to now, and the level moved by the
binary rule.  Levels above 10 trigger `migrate_to_native_db`, which with
no `POSTGRES_URL` configured just commits (source lines 1201–1204). -/
def update_practice (store : Store) (category : String) (item_id : Nat)
    (correct : Bool) (now : Int) : PracticeResponse × Store :=
  if category = "vocabulary" ∨ category = "phrasal-verbs" ∨ category = "idioms" then
    match getPracticeItem store category item_id with
    | some item =>
        (.ok, setPracticeItem store category item_id
          ⟨practiceLevel correct item.mastery_level, item.times_practiced + 1, some now⟩)
    | none => (.notFound, store)
  else (.invalidCategory, store)

/-- The per-item level increase written in the `/api/process-mastery-levels`
route body (source lines 2010, 2039, 2068): `min((level or 0) + 1, 15)`.
The route itself is unreachable (see `process_mastery_levels_response`),
so this rule can never fire in the running program; it is kept as a step
kind because including it only strengthens the level-bounds invariant. -/
def routeIncreaseLevel (l : Int) : Int := min (l + 1) 15

/-- The outcome of every request to `/api/process-mastery-levels`
(source lines 1978–2110): line 1989 reads
`data.get('threshold', MASTERY_SCORE_THRESHOLD)`.  The name
`MASTERY_SCORE_THRESHOLD` is defined nowhere in the repository, and
Python evaluates the default argument of `dict.get` eagerly, so every
request that reaches line 1989 raises `NameError`; the `except` at
source lines 2106–2110 turns it into a 500 error response.  The route
never reaches its update loop, so its `updated_items` and
`not_found_items` lists are dead code and are never reported to any
caller. -/
def process_mastery_levels_response : Except String Unit :=
  .error "Error processing mastery levels: NameError: MASTERY_SCORE_THRESHOLD is not defined"

/-- A commit oracle that never fails. -/
def noFail : String → Nat → Bool := fun _ _ => false

/-- Store for the C2 scenario: one vocabulary item at level 0 that has
been practiced 5 times, last at time 100. -/
def c2Store : Store :=
  { emptyStore with vocab := fun j => if j = 1 then some ⟨0, 5, some 100⟩ else none }

/-- Normalized data for the C2 scenario: one evaluated result for that
item with the poor score 1. -/
def c2Data : ProcessedData := ⟨true, true, true, [⟨1, "vocabulary", "w", 1⟩]⟩

/-- Store for the C3 scenario: one vocabulary item at level 3, practiced
4 times, last at time 50. -/
def c3Store : Store :=
  { emptyStore with vocab := fun j => if j = 1 then some ⟨3, 4, some 50⟩ else none }

/-- Normalized data for the C3 scenario: one evaluated result for that
item with the excellent score 9. -/
def c3Data : ProcessedData := ⟨true, true, true, [⟨1, "vocabulary", "w", 9⟩]⟩

/-- A commit oracle that always fails. -/
def allFail : String → Nat → Bool := fun _ _ => true

/-- Normalized data for the C9 scenario: one evaluated result whose
id/kind pair is absent from the store. -/
def c9Data : ProcessedData := ⟨true, true, true, [⟨1, "vocabulary", "w", 9⟩]⟩

/-- One response of the `responses` list of a simple (regular-test)
upload (source lines 427–442): `id`, `type`, `text`. -/
structure RegResponse where
  id : Nat
  type_ : String
  text : String
deriving DecidableEq, Repr

/-- `UnifiedEvaluationManager.process_regular_evaluation` (source lines
423–456): normalizes a simple upload with an empty `evaluation` dict per
result (so the extracted score defaults to 0) and the constant flags
`can_update_mastery = False`, `evaluation_complete = False`. -/
def process_regular_evaluation (responses : List RegResponse) : ProcessedData :=
  ⟨true, false, false, responses.map (fun r => ⟨r.id, r.type_, r.text, 0⟩)⟩

/-- One question of a raw-test-results upload (source lines 688–724). -/
structure RawQuestion where
  question_id : Nat
  word_type : String
  text : String
deriving DecidableEq, Repr

/-- `UnifiedEvaluationManager.process_raw_test_results` (source lines
680–755): normalizes a raw download with `score: None` per result
(modelled as 0 — the score is unreachable because the flags gate the
updater) and the constant flags `can_update_mastery = False`,
`evaluation_complete = False`. -/
def process_raw_test_results (questions : List RawQuestion) : ProcessedData :=
  ⟨true, false, false, questions.map (fun q => ⟨q.question_id, q.word_type, q.text, 0⟩)⟩

/-- One abstract mastery-level update applied to a single item by any of
the level-mutating paths written in the application: an evaluated result
through `update_mastery_levels` (arbitrary thresholds, action strings
and score), a binary practice outcome through `update_practice`, or a
word-matched increase as written in `/api/process-mastery-levels` (that
route is unreachable in the running program — see
`process_mastery_levels_response` — so including its step only
strengthens the invariant). -/
inductive LevelStep where
  | eval (excT poorT : ℚ) (excA poorA medA : String) (score : ℚ)
  | practice (correct : Bool)
  | wordUpdate

/-- The level reached after one update step, as computed by the
respective source function. -/
def applyLevelStep (l : Int) : LevelStep → Int
  | .eval excT poorT excA poorA medA score =>
      (masteryTransition excT poorT excA poorA medA score l).1
  | .practice correct => practiceLevel correct l
  | .wordUpdate => routeIncreaseLevel l

/-- `TestConfiguration` (source lines 12–46): the `max_questions` target
and the `question_distribution` ratio table of a test type.  The Python
ratio floats (0.4, 0.3, 0.33, 0.34) are modelled as integer percentages;
for every reachable `max_questions` value (at most 10) the truncation
`int(max_questions * ratio)` agrees with the integer division
`maxQ * percent / 100`. -/
structure TestConfig where
  maxQuestions : Int
  ratioIdioms : Int
  ratioVocab : Int
  ratioPhrasal : Int
deriving DecidableEq, Repr

/-- `TestConfiguration.REGULAR_TEST` (source lines 15–25). -/
def REGULAR_TEST : TestConfig := ⟨10, 40, 30, 30⟩

/-- `TestConfiguration.MASTERY_TEST` (source lines 27–37). -/
def MASTERY_TEST : TestConfig := ⟨10, 33, 33, 34⟩

/-- `TestConfiguration.get_config` (source lines 39–46): unknown test
types fall back to the regular configuration. -/
def get_config (t : String) : TestConfig :=
  if t = "regular" then REGULAR_TEST
  else if t = "mastery" then MASTERY_TEST
  else REGULAR_TEST

/-- `int(max_questions * ratio)` (source line 103). -/
def idealCount (maxQ ratio : Int) : Int := maxQ * ratio / 100

/-- Initial per-category count (source line 104):
`min(available_count, max(1 if available_count > 0 else 0, ideal_count))`. -/
def initCount (avail maxQ ratio : Int) : Int :=
  min avail (max (if 0 < avail then 1 else 0) (idealCount maxQ ratio))

/-- One iteration of the shortfall-redistribution loop (source lines
111–119): stop when nothing remains, otherwise give the category
`min(remaining, available - current)` additional questions when that is
positive. -/
def redistribute1 (avail count remaining : Int) : Int × Int :=
  if remaining ≤ 0 then (count, remaining)
  else
    let additional := min remaining (avail - count)
    if 0 < additional then (count + additional, remaining - additional)
    else (count, remaining)

/-- The per-category question counts. -/
structure QDist where
  idioms : Int
  vocab : Int
  phrasal : Int
deriving DecidableEq, Repr

/-- `UnifiedTestManager.calculate_question_distribution` (source lines
89–121) on the three availability counts (`vocabulary`, `phrasal_verbs`,
`idioms`).  The redistribution loop visits the categories in the
insertion order of the distribution dict: idioms, vocabulary,
phrasal verbs. -/
def calculate_question_distribution (cfg : TestConfig) (aV aP aI : Int) : QDist :=
  let total := aV + aP + aI
  if total = 0 then ⟨0, 0, 0⟩
  else
    let maxQ := min cfg.maxQuestions total
    let cI := initCount aI maxQ cfg.ratioIdioms
    let cV := initCount aV maxQ cfg.ratioVocab
    let cP := initCount aP maxQ cfg.ratioPhrasal
    let p1 := redistribute1 aI cI (maxQ - (cI + cV + cP))
    let p2 := redistribute1 aV cV p1.2
    let p3 := redistribute1 aP cP p2.2
    ⟨p1.1, p2.1, p3.1⟩

/-- The number of questions returned by
`UnifiedTestManager.generate_questions` (source lines 123–159): zero
when nothing is available (the "no items" failure carries an empty
question list), otherwise the sum of the per-category counts actually
sampled (`random.sample` draws exactly `count` items when
`count > 0` and the category has items). -/
def generate_question_count (cfg : TestConfig) (aV aP aI : Int) : Int :=
  let d := calculate_question_distribution cfg aV aP aI
  (if 0 < d.idioms ∧ 0 < aI then d.idioms else 0) +
  (if 0 < d.vocab ∧ 0 < aV then d.vocab else 0) +
  (if 0 < d.phrasal ∧ 0 < aP then d.phrasal else 0)

/-- The format tags returned by
`UnifiedEvaluationManager.detect_evaluation_format`. -/
inductive EvalFormat where
  | mastery_test
  | regular_test
  | external_evaluation
  | evaluation_report
  | raw_test_results
  | unknown
deriving DecidableEq, Repr

/-- The top-level shape of an uploaded JSON object, as far as format
detection inspects it: presence of each tested key, plus whether the
`responses` value is a list. -/
structure UploadDoc where
  test_metadata : Bool
  questions_and_responses : Bool
  responses : Bool
  responses_is_list : Bool
  evaluated_results : Bool
  summary : Bool
  evaluation_summary : Bool
  details : Bool
  testDateKey : Bool
  durationMinutesKey : Bool
  totalQuestionsTitleKey : Bool
  overall_score : Bool
  total_questions : Bool
  test_type : Bool
  questions : Bool
  metadata : Bool
deriving DecidableEq, Repr

/-- `UnifiedEvaluationManager.detect_evaluation_format` (source lines
342–370): the priority-ordered structural sniff, including the branch at
source lines 362–364 that classifies a document as an evaluation report
by summary keys alone (`Test Date`, `Duration (minutes)`,
`Total Questions`, `overall_score`, `total_questions`). -/
def detect_evaluation_format (d : UploadDoc) : EvalFormat :=
  if d.test_metadata && d.questions_and_responses then .mastery_test
  else if d.responses && d.responses_is_list then .regular_test
  else if d.evaluated_results then .external_evaluation
  else if (d.summary || d.evaluation_summary) && d.details then .evaluation_report
  else if d.testDateKey || d.durationMinutesKey || d.totalQuestionsTitleKey
      || d.overall_score || d.total_questions then .evaluation_report
  else if d.test_type && d.questions && d.metadata then .raw_test_results
  else .unknown

/-- Format detection as the claim states it: exactly five shapes checked
in priority order — (a) paired metadata/questions-and-responses, (b) a
responses list, (c) an evaluated-results list, (d) a summary-like key
together with a details key, (e) the testType/questions/metadata triple
— and everything else unrecognized. -/
def claimed_detect_format (d : UploadDoc) : EvalFormat :=
  if d.test_metadata && d.questions_and_responses then .mastery_test
  else if d.responses && d.responses_is_list then .regular_test
  else if d.evaluated_results then .external_evaluation
  else if (d.summary || d.evaluation_summary) && d.details then .evaluation_report
  else if d.test_type && d.questions && d.metadata then .raw_test_results
  else .unknown

/-- Format detection as amended: between the claim's checks (d) and (e)
there is an additional check classifying a document that carries any of
the summary keys `Test Date`, `Duration (minutes)`, `Total Questions`,
`overall_score`, `total_questions` — even without a `details` key — as
the report format. -/
def amended_detect_format (d : UploadDoc) : EvalFormat :=
  if d.test_metadata && d.questions_and_responses then .mastery_test
  else if d.responses && d.responses_is_list then .regular_test
  else if d.evaluated_results then .external_evaluation
  else if (d.summary || d.evaluation_summary) && d.details then .evaluation_report
  else if d.testDateKey || d.durationMinutesKey || d.totalQuestionsTitleKey
      || d.overall_score || d.total_questions then .evaluation_report
  else if d.test_type && d.questions && d.metadata then .raw_test_results
  else .unknown

/-- The dispatch skeleton of
`UnifiedEvaluationManager.process_evaluation_upload` (source lines
372–388): a recognized format is handed to its `process_*` method (the
returned tag stands for that call); an unknown format raises
`ValueError(f"Unsupported evaluation format: {eval_format}")`, which the
API route catches and turns into an error response — the process does
not crash. -/
def process_evaluation_upload (d : UploadDoc) : Except String EvalFormat :=
  match detect_evaluation_format d with
  | .unknown => .error "Unsupported evaluation format: unknown"
  | f => .ok f

/-- The empty uploaded object `{}`: no keys at all. -/
def emptyUploadDoc : UploadDoc :=
  ⟨false, false, false, false, false, false, false, false,
   false, false, false, false, false, false, false, false⟩

/-- A document whose only top-level key is `overall_score`. -/
def overallScoreOnlyDoc : UploadDoc :=
  ⟨false, false, false, false, false, false, false, false,
   false, false, false, true, false, false, false, false⟩

/-- **C1.** For configured thresholds `poor < excellent` and the default
action configuration, the mastery transition is the three-band half-open
rule: `score > excellentThreshold` increments (capped at the ceiling 10),
`score < poorThreshold` decrements (floored at 0), and every score with
`poorThreshold ≤ score ≤ excellentThreshold` (including the boundaries)
leaves the level unchanged. -/
theorem mastery_three_band_halfopen (excT poorT score : ℚ) (old : Int)
    (h : poorT < excT) :
    (excT < score →
      (masteryTransition excT poorT "increase" "decrease" "maintain" score old).1
        = min 10 (old + 1)) ∧
    (score < poorT →
      (masteryTransition excT poorT "increase" "decrease" "maintain" score old).1
        = max 0 (old - 1)) ∧
    (poorT ≤ score → score ≤ excT →
      (masteryTransition excT poorT "increase" "decrease" "maintain" score old).1
        = old) := by
  refine ⟨fun h1 => ?_, fun h2 => ?_, fun h3 h4 => ?_⟩
  · simp [masteryTransition, h1]
  · have hne : ¬ excT < score := by linarith
    simp [masteryTransition, hne, h2]
  · have hne : ¬ excT < score := by linarith
    have hnp : ¬ score < poorT := by linarith
    simp [masteryTransition, hne, hnp, h3, h4]

/-- Witness for C1 at thresholds (7, 3): score 9 increments, score 1
decrements, scores 3 and 7 (the boundaries) are maintained. -/
theorem mastery_three_band_halfopen_witness :
    (masteryTransition 7 3 "increase" "decrease" "maintain" 9 4).1 = min 10 (4 + 1) ∧
    (masteryTransition 7 3 "increase" "decrease" "maintain" 1 4).1 = max 0 (4 - 1) ∧
    (masteryTransition 7 3 "increase" "decrease" "maintain" 3 4).1 = 4 ∧
    (masteryTransition 7 3 "increase" "decrease" "maintain" 7 4).1 = 4 := by
  refine ⟨(mastery_three_band_halfopen 7 3 9 4 (by norm_num)).1 (by norm_num),
    (mastery_three_band_halfopen 7 3 1 4 (by norm_num)).2.1 (by norm_num),
    (mastery_three_band_halfopen 7 3 3 4 (by norm_num)).2.2 (by norm_num) (by norm_num),
    (mastery_three_band_halfopen 7 3 7 4 (by norm_num)).2.2 (by norm_num) (by norm_num)⟩

/-- **C2, counterexample.** Item at level 0 (practiced 5 times, last at
time 100) receives score 1 with the default thresholds (7, 3): the level
stays at the floor 0, but — contrary to the claim — `times_practiced` is
NOT reset to 0 and `last_practiced` is NOT cleared: the reset at source
lines 882–884 sits inside the `if new_level != old_level` branch, which
is not entered because `max(0, 0-1) = 0` equals the old level. -/
theorem level0_poor_no_reset_counterexample :
    (update_mastery_levels c2Data none 7 3 "increase" "decrease" "maintain"
        noFail c2Store).2.vocab 1 = some ⟨0, 5, some 100⟩ ∧
    (update_mastery_levels c2Data none 7 3 "increase" "decrease" "maintain"
        noFail c2Store).2.vocab 1 ≠ some ⟨0, 0, none⟩ := by
  have h : (update_mastery_levels c2Data none 7 3 "increase" "decrease" "maintain"
      noFail c2Store).2.vocab 1 = some ⟨0, 5, some 100⟩ := by
    norm_num [update_mastery_levels, c2Data, c2Store, emptyStore, detected_scale_100,
      allScores, listMax, computeThresholds, stepResult, get_item_by_id_and_type,
      masteryTransition, commitItem, setItem, noFail]
  refine ⟨h, ?_⟩
  rw [h]
  simp

/-- **C2, amended.** For an item already at level 0, a score below the
poor threshold leaves the item entirely unchanged in the store (level
stays 0, `times_practiced` and `last_practiced` are untouched); the
result is recorded as a change entry with action `reduced_level` and
`old_level = new_level = 0`.  The counter reset happens only when the
level actually changes to 0. -/
theorem level0_poor_maintains_counters (excT poorT : ℚ)
    (cf : String → Nat → Bool) (acc : UpdateState) (r : EvalResult) (item : Item)
    (hget : get_item_by_id_and_type acc.store r.question_id r.word_type = some item)
    (hlvl : item.mastery_level = 0)
    (hsc : r.score < poorT) (hpe : poorT < excT) :
    stepResult excT poorT "increase" "decrease" "maintain" cf acc r
      = { acc with updated := acc.updated ++
          [⟨r.question_id, r.word_type, r.target_word, "reduced_level", 0, 0, r.score⟩] } := by
  have hne : ¬ excT < r.score := by linarith
  have htr : masteryTransition excT poorT "increase" "decrease" "maintain"
      r.score 0 = (0, "reduced_level") := by
    simp [masteryTransition, hne, hsc]
  simp [stepResult, hget, hlvl, htr]

/-- Witness for the amended C2 on the concrete scenario store. -/
theorem level0_poor_maintains_counters_witness :
    stepResult 7 3 "increase" "decrease" "maintain" noFail
        ⟨[], [], c2Store⟩ ⟨1, "vocabulary", "w", 1⟩
      = { updated := [⟨1, "vocabulary", "w", "reduced_level", 0, 0, 1⟩],
          failed := [], store := c2Store } :=
  level0_poor_maintains_counters 7 3 noFail ⟨[], [], c2Store⟩
    ⟨1, "vocabulary", "w", 1⟩ ⟨0, 5, some 100⟩ (by decide) (by decide)
    (by norm_num) (by norm_num)

/-- **C3, counterexample.** Item at level 3, practiced 4 times, last at
time 50, receives the excellent score 9 through the batch updater: the
level rises to 4, but `times_practiced` stays 4 (the claim demands 5)
and `last_practiced` stays at 50 (the claim demands the current time) —
`update_mastery_levels` never touches the practice counters except to
reset them on collapse to level 0. -/
theorem batch_update_no_practice_counter_counterexample :
    c3Store.vocab 1 = some ⟨3, 4, some 50⟩ ∧
    (update_mastery_levels c3Data none 7 3 "increase" "decrease" "maintain"
        noFail c3Store).2.vocab 1 = some ⟨4, 4, some 50⟩ ∧
    ((update_mastery_levels c3Data none 7 3 "increase" "decrease" "maintain"
        noFail c3Store).2.vocab 1).map Item.times_practiced ≠ some (4 + 1) := by
  have h : (update_mastery_levels c3Data none 7 3 "increase" "decrease" "maintain"
      noFail c3Store).2.vocab 1 = some ⟨4, 4, some 50⟩ := by
    norm_num [update_mastery_levels, c3Data, c3Store, emptyStore, detected_scale_100,
      allScores, listMax, computeThresholds, stepResult, get_item_by_id_and_type,
      masteryTransition, commitItem, setItem, noFail]
  refine ⟨by norm_num [c3Store, emptyStore], h, ?_⟩
  rw [h]
  simp

/-- **C3, amended.** In the flashcard practice path (`update_practice`)
every update of a found item increments `times_practiced` by 1 and sets
`last_practiced` to the current time; the evaluation batch updater
(`update_mastery_levels`) changes only the mastery level on a committed
level change, carrying `times_practiced` and `last_practiced` over
unchanged except that both are reset (to 0 / NULL) exactly when the new
level is 0. -/
theorem practice_vs_batch_counters
    (store : Store) (category : String) (item_id : Nat) (correct : Bool) (now : Int)
    (item : Item) (excT poorT : ℚ) (cf : String → Nat → Bool) (acc : UpdateState)
    (r : EvalResult) (item2 : Item) (nl : Int) (act : String) :
    (getPracticeItem store category item_id = some item →
      update_practice store category item_id correct now
        = (.ok, setPracticeItem store category item_id
            ⟨practiceLevel correct item.mastery_level, item.times_practiced + 1, some now⟩)) ∧
    (get_item_by_id_and_type acc.store r.question_id r.word_type = some item2 →
      (nl, act) = masteryTransition excT poorT "increase" "decrease" "maintain"
        r.score item2.mastery_level →
      nl ≠ item2.mastery_level →
      cf r.word_type r.question_id = false →
      stepResult excT poorT "increase" "decrease" "maintain" cf acc r
        = { updated := acc.updated ++
              [⟨r.question_id, r.word_type, r.target_word, act, item2.mastery_level, nl, r.score⟩],
            failed := acc.failed,
            store := setItem acc.store r.word_type r.question_id (commitItem item2 nl) }) ∧
    (nl ≠ 0 → commitItem item2 nl = ⟨nl, item2.times_practiced, item2.last_practiced⟩) ∧
    (commitItem item2 0 = ⟨0, 0, none⟩) := by
  refine ⟨fun hget => ?_, fun hget2 htr hne hcf => ?_, fun hnl => ?_, ?_⟩
  · have hcat : category = "vocabulary" ∨ category = "phrasal-verbs" ∨ category = "idioms" := by
      by_contra hc
      push_neg at hc
      simp [getPracticeItem, hc.1, hc.2.1, hc.2.2] at hget
    rcases hcat with h | h | h <;> subst h <;>
      simp [getPracticeItem] at hget <;>
      simp [update_practice, getPracticeItem, hget]
  · have htr' : masteryTransition excT poorT "increase" "decrease" "maintain"
        r.score item2.mastery_level = (nl, act) := htr.symm
    simp [stepResult, hget2, htr', hne, hcf]
  · simp [commitItem, hnl]
  · simp [commitItem]

/-- Witness for the amended C3: practicing the level-3 item (correct)
moves it to practiceLevel true 3 = 4 with `times_practiced` 4 + 1 and
`last_practiced` 200, while the batch updater commits level 4 keeping
`times_practiced` 4 and `last_practiced` 50. -/
theorem practice_vs_batch_counters_witness :
    update_practice c3Store "vocabulary" 1 true 200
      = (.ok, setPracticeItem c3Store "vocabulary" 1
          ⟨practiceLevel true 3, 4 + 1, some 200⟩) ∧
    stepResult 7 3 "increase" "decrease" "maintain" noFail ⟨[], [], c3Store⟩
        ⟨1, "vocabulary", "w", 9⟩
      = { updated := [⟨1, "vocabulary", "w", "increased_level", 3, 4, 9⟩],
          failed := [],
          store := setItem c3Store "vocabulary" 1 (commitItem ⟨3, 4, some 50⟩ 4) } ∧
    commitItem ⟨3, 4, some 50⟩ 4 = ⟨4, 4, some 50⟩ ∧
    commitItem ⟨3, 4, some 50⟩ 0 = ⟨0, 0, none⟩ := by
  have h := practice_vs_batch_counters c3Store "vocabulary" 1 true 200 ⟨3, 4, some 50⟩
    7 3 noFail ⟨[], [], c3Store⟩ ⟨1, "vocabulary", "w", 9⟩ ⟨3, 4, some 50⟩ 4 "increased_level"
  refine ⟨?_, ?_, h.2.2.1 (by decide), h.2.2.2⟩
  · have := h.1 (by decide)
    simpa using this
  · have := h.2.1 (by decide) (by norm_num [masteryTransition]) (by decide) (by decide)
    simpa using this

/-- **C5.** For every sequence of score inputs applied through any mix of
the three mastery-update operations, an item's level stays within
[0, 15] after every update: the evaluation updater clamps to
min 10 / max 0, and the practice and word-update paths clamp to
min 15 / max 0 — so a level starting in bounds never becomes negative
and never exceeds the configured ceiling. -/
theorem mastery_level_bounds (l : Int) (steps : List LevelStep)
    (h0 : 0 ≤ l) (h15 : l ≤ 15) :
    0 ≤ List.foldl applyLevelStep l steps ∧ List.foldl applyLevelStep l steps ≤ 15 := by
  induction steps generalizing l with
  | nil => simpa using ⟨h0, h15⟩
  | cons s ss ih =>
    have hstep : 0 ≤ applyLevelStep l s ∧ applyLevelStep l s ≤ 15 := by
      cases s with
      | eval excT poorT excA poorA medA score =>
        simp only [applyLevelStep, masteryTransition]
        split_ifs <;> simp <;> omega
      | practice c =>
        cases c <;> simp [applyLevelStep, practiceLevel] <;> omega
      | wordUpdate =>
        simp only [applyLevelStep, routeIncreaseLevel]
        omega
    rw [List.foldl_cons]
    exact ih _ hstep.1 hstep.2

/-- Witness for C5: starting at level 0 and applying a practice success,
an evaluated excellent score, and a word-matched increase stays in
[0, 15]. -/
theorem mastery_level_bounds_witness :
    0 ≤ List.foldl applyLevelStep 0
        [.practice true, .eval 7 3 "increase" "decrease" "maintain" 9, .wordUpdate] ∧
      List.foldl applyLevelStep 0
        [.practice true, .eval 7 3 "increase" "decrease" "maintain" 9, .wordUpdate] ≤ 15 :=
  mastery_level_bounds 0 _ (by norm_num) (by norm_num)

/-- **C8.** Per-item commit independence of the batch updater: when the
store write for one result raises, that item's change is rolled back
(the store component of the loop state is untouched), the item is
recorded in the failed list with its old level preserved
(`new_level = old_level`), and the batch continues: processing the rest
of the batch proceeds from the same state apart from that one appended
failure entry. -/
theorem batch_failure_isolated (excT poorT : ℚ) (cf : String → Nat → Bool)
    (acc : UpdateState) (r : EvalResult) (rest : List EvalResult) (item : Item)
    (hget : get_item_by_id_and_type acc.store r.question_id r.word_type = some item)
    (hch : (masteryTransition excT poorT "increase" "decrease" "maintain"
      r.score item.mastery_level).1 ≠ item.mastery_level)
    (hcf : cf r.word_type r.question_id = true) :
    List.foldl (stepResult excT poorT "increase" "decrease" "maintain" cf) acc (r :: rest)
      = List.foldl (stepResult excT poorT "increase" "decrease" "maintain" cf)
          { acc with failed := acc.failed ++
            [⟨r.question_id, r.word_type, r.target_word, "failed",
              item.mastery_level, item.mastery_level, r.score⟩] } rest := by
  rw [List.foldl_cons]
  congr 1
  simp [stepResult, hget, hch, hcf]

/-- Witness for C8: with a commit oracle that fails, the level-3 item's
score-9 update is rolled back into the failed list with old level 3
preserved and the store untouched. -/
theorem batch_failure_isolated_witness :
    List.foldl (stepResult 7 3 "increase" "decrease" "maintain" allFail)
        ⟨[], [], c3Store⟩ [⟨1, "vocabulary", "w", 9⟩]
      = List.foldl (stepResult 7 3 "increase" "decrease" "maintain" allFail)
          ⟨[], [⟨1, "vocabulary", "w", "failed", 3, 3, 9⟩], c3Store⟩ [] :=
  batch_failure_isolated 7 3 allFail ⟨[], [], c3Store⟩ ⟨1, "vocabulary", "w", 9⟩ []
    ⟨3, 4, some 50⟩ (by decide) (by norm_num [masteryTransition]) rfl

/-- **C9, counterexample.** A batch containing one result whose id/kind
pair is absent from the store: `update_mastery_levels` succeeds, the
store is unchanged, and the missing item is recorded nowhere — the
updated and failed lists are empty and every statistics counter except
`total_questions` is 0.  The response of `update_mastery_levels` has no
"not found" list at all (the item is skipped by the bare `continue` at
source lines 853–854), refuting the claim that it is recorded in a
not-found list reported to the caller. -/
theorem missing_item_unrecorded_counterexample :
    update_mastery_levels c9Data none 7 3 "increase" "decrease" "maintain"
        noFail emptyStore
      = (.success [] [] ⟨1, 0, 0, 0, 0, 0⟩, emptyStore) := by
  norm_num [update_mastery_levels, c9Data, emptyStore, detected_scale_100, allScores,
    listMax, computeThresholds, stepResult, get_item_by_id_and_type, noFail]

/-- **C9, amended.** A result whose id/kind pair is absent from the store
is skipped by `update_mastery_levels` without aborting the batch — the
loop continues over the remaining results from an unchanged state (same
store, same updated and failed lists) — but it is not recorded in any
list reported to the caller.  (The only not-found list in the source
sits in the `/api/process-mastery-levels` route, which always fails with
a `NameError` on its undefined threshold default before reaching its
loop.) -/
theorem missing_item_skipped_silently (excT poorT : ℚ)
    (cf : String → Nat → Bool) (acc : UpdateState) (r : EvalResult)
    (rest : List EvalResult)
    (hget : get_item_by_id_and_type acc.store r.question_id r.word_type = none) :
    List.foldl (stepResult excT poorT "increase" "decrease" "maintain" cf) acc (r :: rest)
      = List.foldl (stepResult excT poorT "increase" "decrease" "maintain" cf) acc rest ∧
    process_mastery_levels_response = .error
      "Error processing mastery levels: NameError: MASTERY_SCORE_THRESHOLD is not defined" := by
  refine ⟨?_, rfl⟩
  rw [List.foldl_cons]
  congr 1
  simp [stepResult, hget]

/-- Witness for the amended C9: the unified updater skips a missing item,
continuing the batch from an untouched state. -/
theorem missing_item_skipped_silently_witness :
    List.foldl (stepResult 7 3 "increase" "decrease" "maintain" noFail)
        ⟨[], [], emptyStore⟩ [⟨1, "vocabulary", "w", 9⟩]
      = List.foldl (stepResult 7 3 "increase" "decrease" "maintain" noFail)
          ⟨[], [], emptyStore⟩ [] ∧
    process_mastery_levels_response = .error
      "Error processing mastery levels: NameError: MASTERY_SCORE_THRESHOLD is not defined" :=
  missing_item_skipped_silently 7 3 noFail ⟨[], [], emptyStore⟩
    ⟨1, "vocabulary", "w", 9⟩ [] (by decide)

/-- **C10.** The batch updater refuses to run on normalized data whose
`can_update_mastery` or `evaluation_complete` flag is false, returning a
failure result and leaving the store unchanged; and the simple
(regular-test) and raw-test-results normalizers always emit
`can_update_mastery = False` and `evaluation_complete = False`, so those
documents can never change any mastery level. -/
theorem gated_updater_refuses (rs : List RegResponse) (qs : List RawQuestion)
    (pd : ProcessedData) (thr : Option ℚ) (eE eP : Int) (excA poorA medA : String)
    (cf : String → Nat → Bool) (store : Store) :
    (process_regular_evaluation rs).can_update_mastery = false ∧
    (process_regular_evaluation rs).evaluation_complete = false ∧
    (process_raw_test_results qs).can_update_mastery = false ∧
    (process_raw_test_results qs).evaluation_complete = false ∧
    (pd.can_update_mastery = false ∨ pd.evaluation_complete = false →
      (update_mastery_levels pd thr eE eP excA poorA medA cf store).2 = store ∧
      ∃ m, (update_mastery_levels pd thr eE eP excA poorA medA cf store).1 = .failure m) := by
  refine ⟨rfl, rfl, rfl, rfl, fun h => ?_⟩
  rcases h with h | h
  · refine ⟨?_, "This test type does not support mastery level updates", ?_⟩ <;>
      simp [update_mastery_levels, h]
  · by_cases hc : pd.can_update_mastery
    · refine ⟨?_, "Evaluation not complete. Cannot update mastery levels.", ?_⟩ <;>
        simp [update_mastery_levels, hc, h]
    · refine ⟨?_, "This test type does not support mastery level updates", ?_⟩ <;>
        simp [update_mastery_levels, hc]

/-- Witness for C10: normalizing an empty simple upload and feeding it to
the updater leaves the empty store unchanged with a failure result. -/
theorem gated_updater_refuses_witness :
    (update_mastery_levels (process_regular_evaluation []) none 7 3
        "increase" "decrease" "maintain" noFail emptyStore).2 = emptyStore ∧
    ∃ m, (update_mastery_levels (process_regular_evaluation []) none 7 3
        "increase" "decrease" "maintain" noFail emptyStore).1 = .failure m :=
  (gated_updater_refuses [] [] (process_regular_evaluation []) none 7 3
    "increase" "decrease" "maintain" noFail emptyStore).2.2.2.2 (Or.inl rfl)

/-- **C6, counterexample.** The document whose only top-level key is
`overall_score` matches none of the claim's five shapes, so per the
claim it must fail with an unrecognized-format error; the code instead
classifies it as the report format through the summary-keys branch at
source lines 362–364. -/
theorem detect_sixth_branch_counterexample :
    detect_evaluation_format overallScoreOnlyDoc = .evaluation_report ∧
    claimed_detect_format overallScoreOnlyDoc = .unknown ∧
    detect_evaluation_format overallScoreOnlyDoc
      ≠ claimed_detect_format overallScoreOnlyDoc := by
  decide

/-- **C6, amended.** Format detection checks the top-level shape in the
claim's priority order with one additional rule between (d) and (e): a
document carrying any of the summary keys `Test Date`,
`Duration (minutes)`, `Total Questions`, `overall_score`,
`total_questions` is classified as the report format even without a
`details` key.  Every document matching none of the six shapes — for
example the empty object — yields the unrecognized-format error (a
raised `ValueError` the API route reports), not a crash. -/
theorem detect_priority_order_amended :
    (∀ d : UploadDoc, detect_evaluation_format d = amended_detect_format d) ∧
    detect_evaluation_format emptyUploadDoc = .unknown ∧
    process_evaluation_upload emptyUploadDoc
      = .error "Unsupported evaluation format: unknown" :=
  ⟨fun _ => rfl, rfl, rfl⟩

/-- Helper: the seed of a max-fold is a lower bound of the result. -/
theorem le_foldl_max (ys : List ℚ) (a : ℚ) : a ≤ ys.foldl max a := by
  induction ys generalizing a with
  | nil => simp
  | cons y ys ih => exact le_trans (le_max_left a y) (ih (max a y))

/-- Helper: every member of the list is below the max-fold. -/
theorem mem_le_foldl_max : ∀ (ys : List ℚ) (a x : ℚ), x ∈ ys → x ≤ ys.foldl max a
  | [], _, _, hx => absurd hx (List.not_mem_nil _)
  | y :: ys, a, x, hx => by
    rcases List.mem_cons.mp hx with h | h
    · subst h
      exact le_trans (le_max_right a x) (le_foldl_max ys (max a x))
    · exact mem_le_foldl_max ys (max a y) x h

/-- Helper: a max-fold returns its seed or a member of the list. -/
theorem foldl_max_mem : ∀ (ys : List ℚ) (a : ℚ), ys.foldl max a = a ∨ ys.foldl max a ∈ ys
  | [], _ => Or.inl rfl
  | y :: ys, a => by
    rcases foldl_max_mem ys (max a y) with h | h
    · rcases max_choice a y with h2 | h2
      · exact Or.inl (by rw [List.foldl_cons, h, h2])
      · exact Or.inr (by rw [List.foldl_cons, h, h2]; exact List.mem_cons_self y ys)
    · exact Or.inr (by rw [List.foldl_cons]; exact List.mem_cons_of_mem y h)

/-- Helper: `listMax` of a nonempty list is one of its members. -/
theorem listMax_mem {l : List ℚ} (h : l ≠ []) : listMax l ∈ l := by
  cases l with
  | nil => exact absurd rfl h
  | cons x xs =>
    show xs.foldl max x ∈ x :: xs
    rcases foldl_max_mem xs x with h2 | h2
    · rw [h2]; exact List.mem_cons_self x xs
    · exact List.mem_cons_of_mem x h2

/-- Helper: `listMax` bounds every member. -/
theorem le_listMax {x : ℚ} {l : List ℚ} (hx : x ∈ l) : x ≤ listMax l := by
  cases l with
  | nil => cases hx
  | cons y ys =>
    rcases List.mem_cons.mp hx with h | h
    · subst h; exact le_foldl_max ys x
    · exact mem_le_foldl_max ys y x h

/-- Helper: the mean of a nonempty list never exceeds its max (hence the
source's `avg_score > 10` disjunct is subsumed by `max_score > 10`). -/
theorem sum_div_length_le_listMax (l : List ℚ) (h : l ≠ []) :
    l.sum / l.length ≤ listMax l := by
  have hlen : 0 < (l.length : ℚ) := by
    have := List.length_pos.mpr h
    exact_mod_cast this
  rw [div_le_iff₀ hlen]
  calc l.sum ≤ l.length • listMax l :=
        List.sum_le_card_nsmul l _ (fun x hx => le_listMax hx)
    _ = listMax l * l.length := by rw [nsmul_eq_mul]; ring

/-- **C7.** The batch is treated as 0–100 if and only if some observed
score exceeds 10 (the source's additional `avg_score > 10` disjunct is
redundant because the mean never exceeds the max); and for every
threshold input the thresholds applied on the 0–100 scale are exactly 10
times the thresholds applied on the 0–10 scale, so equivalent thresholds
are used on either scale. -/
theorem scale_detection_and_threshold_equivalence (rs : List EvalResult)
    (thr : Option ℚ) (eE eP : Int) :
    (detected_scale_100 rs = true ↔ ∃ r ∈ rs, 10 < r.score) ∧
    (computeThresholds thr eE eP true).1 = 10 * (computeThresholds thr eE eP false).1 ∧
    (computeThresholds thr eE eP true).2 = 10 * (computeThresholds thr eE eP false).2 := by
  refine ⟨⟨fun h => ?_, fun h => ?_⟩, ?_, ?_⟩
  · simp only [detected_scale_100, Bool.and_eq_true, Bool.not_eq_true',
      Bool.or_eq_true, decide_eq_true_eq] at h
    obtain ⟨hne, hdisj⟩ := h
    have hnil : allScores rs ≠ [] := by
      intro hh
      rw [hh] at hne
      simp at hne
    have hmax : 10 < listMax (allScores rs) := by
      rcases hdisj with h | h
      · exact h
      · have := sum_div_length_le_listMax _ hnil
        linarith
    have hmem := listMax_mem hnil
    obtain ⟨hmem2, -⟩ := List.mem_filter.mp hmem
    obtain ⟨r, hr, hrs⟩ := List.mem_map.mp hmem2
    exact ⟨r, hr, by rw [hrs]; exact hmax⟩
  · obtain ⟨r, hr, hs⟩ := h
    have hmem : r.score ∈ allScores rs := by
      refine List.mem_filter.mpr ⟨List.mem_map.mpr ⟨r, hr, rfl⟩, ?_⟩
      simp only [decide_eq_true_eq]
      linarith
    have hnil : allScores rs ≠ [] := by
      intro hh
      rw [hh] at hmem
      cases hmem
    have hmax : 10 < listMax (allScores rs) := lt_of_lt_of_le hs (le_listMax hmem)
    simp only [detected_scale_100, Bool.and_eq_true, Bool.not_eq_true',
      Bool.or_eq_true, decide_eq_true_eq]
    refine ⟨?_, Or.inl hmax⟩
    cases hsc : allScores rs with
    | nil => exact absurd hsc hnil
    | cons a l => simp [hsc]
  · rcases thr with _ | t
    · simp [computeThresholds]
      ring
    · by_cases ht : t ≤ 10
      · simp [computeThresholds, ht, not_lt.mpr ht]
        ring
      · simp [computeThresholds, ht, not_le.mp ht]
        field_simp
  · rcases thr with _ | t
    · simp [computeThresholds]
      ring
    · by_cases ht : t ≤ 10
      · have hmm : (10 : ℚ) * max 1 (t - 4) = max 10 ((t - 4) * 10) := by
          rw [mul_max_of_nonneg _ _ (by norm_num : (0 : ℚ) ≤ 10), mul_one, mul_comm]
        simp [computeThresholds, ht, not_lt.mpr ht, hmm]
      · have hmm : (10 : ℚ) * max 1 ((t - 40) / 10) = max 10 (t - 40) := by
          rw [mul_max_of_nonneg _ _ (by norm_num : (0 : ℚ) ≤ 10), mul_one,
            mul_comm 10 ((t - 40) / 10), div_mul_cancel₀ _ (by norm_num : (10 : ℚ) ≠ 0)]
        simp [computeThresholds, ht, not_le.mp ht, hmm]

/-- Helper: one redistribution step conserves count + remaining. -/
theorem redistribute1_conserve (a c r : Int) :
    (redistribute1 a c r).1 + (redistribute1 a c r).2 = c + r := by
  simp only [redistribute1]
  split_ifs <;> simp

/-- Helper: one redistribution step never takes questions away. -/
theorem redistribute1_count_ge (a c r : Int) : c ≤ (redistribute1 a c r).1 := by
  simp only [redistribute1]
  split_ifs with h1 h2 <;> simp <;> omega

/-- Helper: one redistribution step never exceeds the availability. -/
theorem redistribute1_count_le (a c r : Int) (h : c ≤ a) :
    (redistribute1 a c r).1 ≤ a := by
  simp only [redistribute1]
  split_ifs with h1 h2 <;> simp <;> omega

/-- Helper: the remaining budget stays nonnegative. -/
theorem redistribute1_rem_nonneg (a c r : Int) (h : 0 ≤ r) :
    0 ≤ (redistribute1 a c r).2 := by
  simp only [redistribute1]
  split_ifs with h1 h2 <;> simp <;> omega

/-- Helper: the remaining budget never grows. -/
theorem redistribute1_rem_le (a c r : Int) : (redistribute1 a c r).2 ≤ r := by
  simp only [redistribute1]
  split_ifs with h1 h2 <;> simp <;> omega

/-- Helper: after one step, either the budget is exhausted or the
category is filled to its availability. -/
theorem redistribute1_exhaust (a c r : Int) (h : c ≤ a) :
    (redistribute1 a c r).2 ≤ 0 ∨ (redistribute1 a c r).1 = a := by
  simp only [redistribute1]
  split_ifs with h1 h2
  · exact Or.inl (by simpa using h1)
  · rcases min_choice r (a - c) with hm | hm
    · exact Or.inl (by simp [hm])
    · exact Or.inr (by simp [hm])
  · right
    simp only
    push_neg at h1 h2
    omega

/-- Helper: the initial count is nonnegative. -/
theorem initCount_nonneg (a maxQ ratio : Int) (h : 0 ≤ a) :
    0 ≤ initCount a maxQ ratio := by
  refine le_min h ?_
  split_ifs with h1
  · exact le_trans (by norm_num) (le_max_left 1 _)
  · exact le_max_left 0 _

/-- Helper: the initial count never exceeds the availability. -/
theorem initCount_le_avail (a maxQ ratio : Int) : initCount a maxQ ratio ≤ a :=
  min_le_left _ _

/-- Helper: the initial count is capped by the lifted ideal count. -/
theorem initCount_le_cap (a ratio : Int) :
    initCount a 10 ratio ≤ max 1 (idealCount 10 ratio) := by
  refine le_trans (min_le_right _ _) (max_le_max ?_ le_rfl)
  split_ifs <;> norm_num

/-- Helper: full behaviour of `calculate_question_distribution` for a
configuration with `max_questions = 10` whose lifted ideal counts sum to
at most 10 (true of both shipped ratio tables): the per-category counts
are nonnegative and bounded by availability, and — when anything is
available at all — they sum to exactly `min 10 total`. -/
theorem distribution_spec (cfg : TestConfig) (aV aP aI : Int)
    (hV : 0 ≤ aV) (hP : 0 ≤ aP) (hI : 0 ≤ aI)
    (hmax : cfg.maxQuestions = 10)
    (hcap : max 1 (idealCount 10 cfg.ratioIdioms) + max 1 (idealCount 10 cfg.ratioVocab)
      + max 1 (idealCount 10 cfg.ratioPhrasal) ≤ 10) :
    0 ≤ (calculate_question_distribution cfg aV aP aI).idioms ∧
    (calculate_question_distribution cfg aV aP aI).idioms ≤ aI ∧
    0 ≤ (calculate_question_distribution cfg aV aP aI).vocab ∧
    (calculate_question_distribution cfg aV aP aI).vocab ≤ aV ∧
    0 ≤ (calculate_question_distribution cfg aV aP aI).phrasal ∧
    (calculate_question_distribution cfg aV aP aI).phrasal ≤ aP ∧
    (aV + aP + aI ≠ 0 →
      (calculate_question_distribution cfg aV aP aI).idioms
        + (calculate_question_distribution cfg aV aP aI).vocab
        + (calculate_question_distribution cfg aV aP aI).phrasal
        = min 10 (aV + aP + aI)) ∧
    (aV + aP + aI = 0 → calculate_question_distribution cfg aV aP aI = ⟨0, 0, 0⟩) := by
  by_cases h0 : aV + aP + aI = 0
  · have hd : calculate_question_distribution cfg aV aP aI = ⟨0, 0, 0⟩ := by
      simp [calculate_question_distribution, h0]
    rw [hd]
    refine ⟨le_refl 0, ?_, le_refl 0, ?_, le_refl 0, ?_,
      fun h => absurd h0 h, fun _ => rfl⟩ <;> simp <;> omega
  · -- the distribution pipeline, stage by stage
    set total := aV + aP + aI with htotal
    set maxQ := min cfg.maxQuestions total with hmaxQ
    set cI := initCount aI maxQ cfg.ratioIdioms with hcI
    set cV := initCount aV maxQ cfg.ratioVocab with hcV
    set cP := initCount aP maxQ cfg.ratioPhrasal with hcP
    set p1 := redistribute1 aI cI (maxQ - (cI + cV + cP)) with hp1
    set p2 := redistribute1 aV cV p1.2 with hp2
    set p3 := redistribute1 aP cP p2.2 with hp3
    have hd : calculate_question_distribution cfg aV aP aI = ⟨p1.1, p2.1, p3.1⟩ := by
      rw [calculate_question_distribution]
      simp only [← htotal, if_neg h0, ← hmaxQ, ← hcI, ← hcV, ← hcP, ← hp1, ← hp2, ← hp3]
    -- bounds on the initial counts
    have hI0 : 0 ≤ cI := initCount_nonneg _ _ _ hI
    have hV0 : 0 ≤ cV := initCount_nonneg _ _ _ hV
    have hP0 : 0 ≤ cP := initCount_nonneg _ _ _ hP
    have hIa : cI ≤ aI := initCount_le_avail _ _ _
    have hVa : cV ≤ aV := initCount_le_avail _ _ _
    have hPa : cP ≤ aP := initCount_le_avail _ _ _
    -- the initial counts never overshoot the budget
    have hsum0 : cI + cV + cP ≤ maxQ := by
      by_cases hT : total ≤ 10
      · have : maxQ = total := by omega
        omega
      · have hq : maxQ = 10 := by omega
        have h1 : cI ≤ max 1 (idealCount 10 cfg.ratioIdioms) := by
          rw [hcI, hq]; exact initCount_le_cap _ _
        have h2 : cV ≤ max 1 (idealCount 10 cfg.ratioVocab) := by
          rw [hcV, hq]; exact initCount_le_cap _ _
        have h3 : cP ≤ max 1 (idealCount 10 cfg.ratioPhrasal) := by
          rw [hcP, hq]; exact initCount_le_cap _ _
        omega
    -- stage-by-stage facts
    have hr0 : 0 ≤ maxQ - (cI + cV + cP) := by omega
    have e1 : p1.1 + p1.2 = cI + (maxQ - (cI + cV + cP)) :=
      redistribute1_conserve aI cI (maxQ - (cI + cV + cP))
    have e2 : p2.1 + p2.2 = cV + p1.2 := redistribute1_conserve aV cV p1.2
    have e3 : p3.1 + p3.2 = cP + p2.2 := redistribute1_conserve aP cP p2.2
    have g1 : cI ≤ p1.1 := redistribute1_count_ge aI cI (maxQ - (cI + cV + cP))
    have g2 : cV ≤ p2.1 := redistribute1_count_ge aV cV p1.2
    have g3 : cP ≤ p3.1 := redistribute1_count_ge aP cP p2.2
    have l1 : p1.1 ≤ aI := redistribute1_count_le aI cI (maxQ - (cI + cV + cP)) hIa
    have l2 : p2.1 ≤ aV := redistribute1_count_le aV cV p1.2 hVa
    have l3 : p3.1 ≤ aP := redistribute1_count_le aP cP p2.2 hPa
    have n1 : 0 ≤ p1.2 := redistribute1_rem_nonneg aI cI (maxQ - (cI + cV + cP)) hr0
    have n2 : 0 ≤ p2.2 := redistribute1_rem_nonneg aV cV p1.2 n1
    have n3 : 0 ≤ p3.2 := redistribute1_rem_nonneg aP cP p2.2 n2
    have x1 : p1.2 ≤ 0 ∨ p1.1 = aI :=
      redistribute1_exhaust aI cI (maxQ - (cI + cV + cP)) hIa
    have x2 : p2.2 ≤ 0 ∨ p2.1 = aV := redistribute1_exhaust aV cV p1.2 hVa
    have x3 : p3.2 ≤ 0 ∨ p3.1 = aP := redistribute1_exhaust aP cP p2.2 hPa
    have r2 : p2.2 ≤ p1.2 := redistribute1_rem_le aV cV p1.2
    have r3 : p3.2 ≤ p2.2 := redistribute1_rem_le aP cP p2.2
    -- the budget is fully consumed
    have hrem3 : p3.2 = 0 := by
      rcases x3 with h | hfullP
      · omega
      rcases x2 with h | hfullV
      · omega
      rcases x1 with h | hfullI
      · omega
      · -- all categories filled to availability
        have hle : maxQ ≤ total := by omega
        omega
    have hfinal : p1.1 + p2.1 + p3.1 = maxQ := by omega
    have hq10 : maxQ = min 10 total := by omega
    refine ⟨?_, ?_, ?_, ?_, ?_, ?_, fun _ => ?_, fun h => absurd h h0⟩ <;>
      rw [hd] <;> dsimp only <;> omega

/-- Helper: the number of generated questions equals the sum of the
distribution counts whenever the counts are nonnegative and bounded by
availability (a positive count forces a nonempty category, and a
non-positive count is 0). -/
theorem generate_eq_sum (cfg : TestConfig) (aV aP aI : Int)
    (hI0 : 0 ≤ (calculate_question_distribution cfg aV aP aI).idioms)
    (hIa : (calculate_question_distribution cfg aV aP aI).idioms ≤ aI)
    (hV0 : 0 ≤ (calculate_question_distribution cfg aV aP aI).vocab)
    (hVa : (calculate_question_distribution cfg aV aP aI).vocab ≤ aV)
    (hP0 : 0 ≤ (calculate_question_distribution cfg aV aP aI).phrasal)
    (hPa : (calculate_question_distribution cfg aV aP aI).phrasal ≤ aP) :
    generate_question_count cfg aV aP aI
      = (calculate_question_distribution cfg aV aP aI).idioms
        + (calculate_question_distribution cfg aV aP aI).vocab
        + (calculate_question_distribution cfg aV aP aI).phrasal := by
  rw [generate_question_count]
  have e1 : (if 0 < (calculate_question_distribution cfg aV aP aI).idioms ∧ 0 < aI
      then (calculate_question_distribution cfg aV aP aI).idioms else 0)
      = (calculate_question_distribution cfg aV aP aI).idioms := by
    split_ifs with h
    · rfl
    · simp only [not_and, not_lt] at h
      omega
  have e2 : (if 0 < (calculate_question_distribution cfg aV aP aI).vocab ∧ 0 < aV
      then (calculate_question_distribution cfg aV aP aI).vocab else 0)
      = (calculate_question_distribution cfg aV aP aI).vocab := by
    split_ifs with h
    · rfl
    · simp only [not_and, not_lt] at h
      omega
  have e3 : (if 0 < (calculate_question_distribution cfg aV aP aI).phrasal ∧ 0 < aP
      then (calculate_question_distribution cfg aV aP aI).phrasal else 0)
      = (calculate_question_distribution cfg aV aP aI).phrasal := by
    split_ifs with h
    · rfl
    · simp only [not_and, not_lt] at h
      omega
  rw [e1, e2, e3]

/-- **C4.** For every mastery-level band (every test type, through
`get_config`) and the configured target count (`max_questions`, 10 for
both bands), test generation returns at most `max_questions` questions;
when the total availability reaches the target it returns exactly the
target, and when fewer items are available it returns exactly all
available items; moreover no category is asked for more questions than
it has (no padding or repetition). -/
theorem test_generation_count (t : String) (aV aP aI : ℕ) :
    generate_question_count (get_config t) aV aP aI ≤ (get_config t).maxQuestions ∧
    ((get_config t).maxQuestions ≤ (aV : Int) + aP + aI →
      generate_question_count (get_config t) aV aP aI = (get_config t).maxQuestions) ∧
    ((aV : Int) + aP + aI < (get_config t).maxQuestions →
      generate_question_count (get_config t) aV aP aI = (aV : Int) + aP + aI) ∧
    (calculate_question_distribution (get_config t) aV aP aI).idioms ≤ aI ∧
    (calculate_question_distribution (get_config t) aV aP aI).vocab ≤ aV ∧
    (calculate_question_distribution (get_config t) aV aP aI).phrasal ≤ aP := by
  have hcfg : (get_config t).maxQuestions = 10 ∧
      max 1 (idealCount 10 (get_config t).ratioIdioms)
        + max 1 (idealCount 10 (get_config t).ratioVocab)
        + max 1 (idealCount 10 (get_config t).ratioPhrasal) ≤ 10 := by
    rw [get_config]
    split_ifs <;> norm_num [REGULAR_TEST, MASTERY_TEST, idealCount]
  obtain ⟨hI0, hIa, hV0, hVa, hP0, hPa, hsum, hzero⟩ :=
    distribution_spec (get_config t) aV aP aI (by positivity) (by positivity)
      (by positivity) hcfg.1 hcfg.2
  have hgen := generate_eq_sum (get_config t) aV aP aI hI0 hIa hV0 hVa hP0 hPa
  by_cases h0 : (aV : Int) + aP + aI = 0
  · have hd := hzero h0
    rw [hgen, hd]
    dsimp only
    refine ⟨by rw [hcfg.1]; omega, fun h => by rw [hcfg.1] at h ⊢; omega,
      fun _ => by omega, by omega, by omega, by omega⟩
  · have hs := hsum h0
    rw [hgen, hs]
    refine ⟨by rw [hcfg.1]; omega, fun h => by rw [hcfg.1] at h ⊢; omega,
      fun h => by rw [hcfg.1] at h; omega, hIa, hVa, hPa⟩

/-- Witness for C4: with 20 vocabulary items available the regular test
generates exactly 10 questions; with only 4 items available in total the
mastery test generates exactly 4. -/
theorem test_generation_count_witness :
    (get_config "regular").maxQuestions = 10 ∧
    generate_question_count (get_config "regular")
      ((20 : ℕ) : Int) ((0 : ℕ) : Int) ((0 : ℕ) : Int)
      = (get_config "regular").maxQuestions ∧
    generate_question_count (get_config "mastery")
      ((2 : ℕ) : Int) ((1 : ℕ) : Int) ((1 : ℕ) : Int)
      = ((2 : ℕ) : Int) + ((1 : ℕ) : Int) + ((1 : ℕ) : Int) := by
  refine ⟨by decide, ?_, ?_⟩
  · exact (test_generation_count "regular" 20 0 0).2.1 (by decide)
  · exact (test_generation_count "mastery" 2 1 1).2.2.1 (by decide)
